import Mathlib

/-!
Shallow embedding of the INTEARnear events-api-websocket-server sources
(src/main.rs, src/redis_reader.rs, src/nft_events.rs, src/trade_events.rs,
src/potlock_events.rs), together with theorems settling the specification
claims about it.

Conventions used throughout:
* Rust `String` is Lean `String`; the crate-root type aliases (declared in
  the crate root, mirrored from the local aliases in `nft_events.rs`) are
  `AccountId = String`, `Balance = String`, `BlockHeight = u64 ~ Nat`,
  `TransactionId = ReceiptId = String`; `PoolId`, `ProjectId` are account
  strings; `DonationId`, `TimestampMs` are numeric ids.
* `std::collections::HashMap<String, V>` appears in the code only through
  `get`/`contains_key` on string keys; it is embedded as an association
  list `List (String × V)` with `lookupKV` as the lookup operation.
* Fallible Rust code (`anyhow::Result`, `RedisResult`) is embedded with
  `Except`/`Option`; a reachable `unwrap` of `None` is made explicit with
  a dedicated `panicked` constructor instead of being left out.
* `Instant` timestamps are `Nat` (monotone clock readings); `Duration`
  comparisons stay on `Nat`.
-/

/-- Lookup in an association list, embedding `HashMap::get` on string-keyed
maps (`balance_changes`, `min_amounts`, the redis entry field map). -/
def lookupKV {β : Type} : List (String × β) → String → Option β
  | [], _ => none
  | (k', v) :: rest, k => if k' = k then some v else lookupKV rest k

/-- Embedding of Rust `str::parse::<u128>()`: an optional leading `+`,
then a nonempty run of ASCII digits, with overflow (≥ 2^128) rejected. -/
def parseU128 (s : String) : Option Nat :=
  let cs := if s.data.head? = some '+' then s.data.tail else s.data
  if cs.isEmpty then none
  else if cs.all (fun c => c.isDigit) then
    let n := cs.foldl (fun acc c => acc * 10 + (c.toNat - 48)) 0
    if n < 2 ^ 128 then some n else none
  else none

/-! ## Trade events (`src/trade_events.rs`) -/

/-- `TradeContext` from `trade_events.rs`. -/
structure TradeContext where
  trader : String
  block_height : Nat
  block_timestamp_nanosec : String
  transaction_id : String
  receipt_id : String
deriving DecidableEq

/-- `RawPoolSwap` from `trade_events.rs`. -/
structure RawPoolSwap where
  pool : String
  token_in : String
  token_out : String
  amount_in : String
  amount_out : String
deriving DecidableEq

/-- `TradeBalanceChangeSwap` from `trade_events.rs`; `balance_changes` is a
`HashMap<AccountId, Balance>` embedded as an association list. -/
structure TradeBalanceChangeSwap where
  balance_changes : List (String × String)
  pool_swaps : List RawPoolSwap
deriving DecidableEq

/-- `FullTradeSwapEvent` from `trade_events.rs`. -/
structure FullTradeSwapEvent where
  event : TradeBalanceChangeSwap
  context : TradeContext
deriving DecidableEq

/-- `TradeSwapEventFilter` from `trade_events.rs`. -/
structure TradeSwapEventFilter where
  account_id : Option String
  involved_token_account_ids : Option (List String)
deriving DecidableEq

/-- `EventFilter<FullTradeSwapEvent>::matches` for `TradeSwapEventFilter`
(`trade_events.rs` lines 198-218).  The source is a chain of early
`return false`s: the `account_id` equality check, then a loop over
`involved_token_account_ids` returning `false` for a token that is not a
`balance_changes` key or whose balance change is the string `"0"`. -/
def TradeSwapEventFilter.matches (f : TradeSwapEventFilter)
    (e : FullTradeSwapEvent) : Bool :=
  (match f.account_id with
   | some account_id => e.context.trader = account_id
   | none => true)
  &&
  (match f.involved_token_account_ids with
   | some involved_token_account_ids =>
     involved_token_account_ids.all (fun involved_token =>
       match lookupKV e.event.balance_changes involved_token with
       | none => false
       | some v => !(v = "0"))
   | none => true)

/-! ## NFT events (`src/nft_events.rs`) -/

/-- `NftEventContext` from `nft_events.rs`. -/
structure NftEventContext where
  transaction_id : String
  receipt_id : String
  block_height : Nat
  block_timestamp_nanosec : String
  contract_id : String
deriving DecidableEq

/-- `NftTransferEvent` from `nft_events.rs`. -/
structure NftTransferEvent where
  old_owner_id : String
  new_owner_id : String
  token_ids : List String
  memo : Option String
  token_prices_near : List (Option String)
deriving DecidableEq

/-- `FullNftTransferEvent` from `nft_events.rs`. -/
structure FullNftTransferEvent where
  event : NftTransferEvent
  context : NftEventContext
deriving DecidableEq

/-- `NftTransferFilter` from `nft_events.rs`. -/
structure NftTransferFilter where
  involved_account_ids : Option (List String)
  old_owner_id : Option String
  new_owner_id : Option String
  contract_id : Option String
deriving DecidableEq

/-- `EventFilter<FullNftTransferEvent>::matches` for `NftTransferFilter`
(`nft_events.rs` lines 207-237): the `contract_id` check, then — when
`involved_account_ids` is set — membership of the old or new owner in the
list; otherwise the individual `old_owner_id`/`new_owner_id` checks. -/
def NftTransferFilter.matches (f : NftTransferFilter)
    (e : FullNftTransferEvent) : Bool :=
  (match f.contract_id with
   | some contract_id => e.context.contract_id = contract_id
   | none => true)
  &&
  (match f.involved_account_ids with
   | some involved =>
     involved.contains e.event.old_owner_id
       || involved.contains e.event.new_owner_id
   | none =>
     (match f.old_owner_id with
      | some old_owner_id => e.event.old_owner_id = old_owner_id
      | none => true)
     &&
     (match f.new_owner_id with
      | some new_owner_id => e.event.new_owner_id = new_owner_id
      | none => true))

/-! ## Potlock events (`src/potlock_events.rs`) -/

/-- `PotlockEventContext` from `potlock_events.rs`. -/
structure PotlockEventContext where
  transaction_id : String
  receipt_id : String
  block_height : Nat
  block_timestamp_nanosec : String
deriving DecidableEq

/-- `PotlockDonationEvent` from `potlock_events.rs`. -/
structure PotlockDonationEvent where
  donation_id : Nat
  donor_id : String
  total_amount : String
  account_id : String
  message : Option String
  donated_at : Nat
  project_id : String
  protocol_fee : String
  referrer_id : Option String
  referrer_fee : Option String
deriving DecidableEq

/-- `FullPotlockDonationEvent` from `potlock_events.rs`. -/
structure FullPotlockDonationEvent where
  event : PotlockDonationEvent
  context : PotlockEventContext
deriving DecidableEq

/-- `PotlockDonationEventFilter` from `potlock_events.rs`; `min_amounts`
is a `HashMap<AccountId, Balance>` embedded as an association list. -/
structure PotlockDonationEventFilter where
  project_id : Option String
  donor_id : Option String
  referrer_id : Option String
  min_amounts : Option (List (String × String))
deriving DecidableEq

/-- `EventFilter<FullPotlockDonationEvent>::matches` for
`PotlockDonationEventFilter` (`potlock_events.rs` lines 140-175): equality
checks on `project_id`, `donor_id`, `referrer_id`, then — when
`min_amounts` is set — lookup of the donor's threshold (absent donor is a
non-match), `parse::<u128>()` of both the event's `total_amount` and the
threshold (a parse failure on either is a non-match), and the comparison
`total_amount >= min_amount`. -/
def PotlockDonationEventFilter.matches (f : PotlockDonationEventFilter)
    (e : FullPotlockDonationEvent) : Bool :=
  (match f.project_id with
   | some project_id => e.event.project_id = project_id
   | none => true)
  &&
  (match f.donor_id with
   | some donor_id => e.event.donor_id = donor_id
   | none => true)
  &&
  (match f.referrer_id with
   | some referrer_id => e.event.referrer_id = some referrer_id
   | none => true)
  &&
  (match f.min_amounts with
   | some min_amounts =>
     match lookupKV min_amounts e.event.donor_id with
     | some min_amount =>
       match parseU128 e.event.total_amount, parseU128 min_amount with
       | some total_amount, some min_amount => !(total_amount < min_amount)
       | _, _ => false
     | none => false
   | none => true)

/-- `PotlockPotDonationEvent` from `potlock_events.rs`. -/
structure PotlockPotDonationEvent where
  donation_id : Nat
  pot_id : String
  donor_id : String
  total_amount : String
  net_amount : String
  message : Option String
  donated_at : Nat
  referrer_id : Option String
  referrer_fee : Option String
  protocol_fee : String
  chef_id : Option String
  chef_fee : Option String
deriving DecidableEq

/-- `FullPotlockPotDonationEvent` from `potlock_events.rs`. -/
structure FullPotlockPotDonationEvent where
  event : PotlockPotDonationEvent
  context : PotlockEventContext
deriving DecidableEq

/-- `PotlockPotDonationEventFilter` from `potlock_events.rs`. -/
structure PotlockPotDonationEventFilter where
  pot_id : Option String
  donor_id : Option String
  referrer_id : Option String
  min_amount_near : Option String
deriving DecidableEq

/-- `EventFilter<FullPotlockPotDonationEvent>::matches` for
`PotlockPotDonationEventFilter` (`potlock_events.rs` lines 371-402):
equality checks on `pot_id`, `donor_id`, `referrer_id`, then — when
`min_amount_near` is set — `parse::<u128>()` of the event's
`total_amount` and of the threshold (a parse failure on either is a
non-match), and the comparison `total_amount >= min_amount_near`. -/
def PotlockPotDonationEventFilter.matches (f : PotlockPotDonationEventFilter)
    (e : FullPotlockPotDonationEvent) : Bool :=
  (match f.pot_id with
   | some pot_id => e.event.pot_id = pot_id
   | none => true)
  &&
  (match f.donor_id with
   | some donor_id => e.event.donor_id = donor_id
   | none => true)
  &&
  (match f.referrer_id with
   | some referrer_id => e.event.referrer_id = some referrer_id
   | none => true)
  &&
  (match f.min_amount_near with
   | some min_amount_near =>
     match parseU128 e.event.total_amount, parseU128 min_amount_near with
     | some total_amount, some min_amount => !(total_amount < min_amount)
     | _, _ => false
   | none => true)

/-! ## Redis values and the cursor store (`src/redis_reader.rs`) -/

/-- The `redis::Value` shapes relevant to this codebase. -/
inductive RedisValue where
  | nil
  | int (i : Int)
  | data (s : String)
  | status (s : String)
  | okay
deriving DecidableEq

/-- `String::from_redis_value`, modelled from the redis crate's
`FromRedisValue for String`: bulk data and status payloads convert, `Okay`
converts to `"OK"`, integers convert to their decimal string, and `Nil`
(the reply for an absent key) is a type error, here `none`. -/
def stringFromRedisValue : RedisValue → Option String
  | RedisValue.data s => some s
  | RedisValue.status s => some s
  | RedisValue.okay => some "OK"
  | RedisValue.int i => some (toString i)
  | RedisValue.nil => none

/-- `RedisDB::get` (`redis_reader.rs` lines 75-80): a `GET` followed by the
string conversion.  `connOk` models whether the command itself reaches the
server (a transport/IO failure makes the whole `RedisResult` an error);
`store` is the key space, with `RedisValue.nil` for an absent key. -/
def RedisDB.get (connOk : Bool) (store : String → RedisValue)
    (key : String) : Except Unit String :=
  if connOk then
    match stringFromRedisValue (store key) with
    | some s => Except.ok s
    | none => Except.error ()
  else Except.error ()

/-- The per-channel cursor persistence key
(`redis_reader.rs` line 17). -/
def saveKey (streamKey : String) : String :=
  "events_api_websocket_last_id_" ++ streamKey

/-- The initial cursor of `stream_events` (`redis_reader.rs` line 19):
`db.get(save_key).await.unwrap_or("$".to_string())`. -/
def streamEventsInitLastId (connOk : Bool) (store : String → RedisValue)
    (streamKey : String) : String :=
  match RedisDB.get connOk store (saveKey streamKey) with
  | Except.ok s => s
  | Except.error _ => "$"

/-! ## The stream consumer loop (`src/redis_reader.rs` lines 22-39)

`stream_events` is generic over an `EventHandler`; the embedding keeps the
handler as a parameter `handler : D → Except ε Unit` over an abstract
entry-field-map type `D` and error type `ε`.  The infinite `'outer` loop
is run over an explicit finite list of `xread` batches (each batch a list
of `(id, field_map)` pairs in the order received); the run records which
entry ids were handled successfully, every value `SET` under the cursor
key, the final in-memory `last_id`, and whether the loop `break 'outer`ed.
-/

/-- Result of the `for (id, data) in entries` inner loop over one batch. -/
structure BatchResult where
  lastId : String
  handled : List String
  failed : Bool
deriving DecidableEq

/-- The inner loop of `stream_events` over one batch: each entry is passed
to `handler.handle`; on error the whole loop breaks (`break 'outer`)
without updating `last_id`; on success `last_id := id`. -/
def processBatch {D ε : Type} (handler : D → Except ε Unit) :
    String → List (String × D) → BatchResult
  | lastId, [] => ⟨lastId, [], false⟩
  | lastId, (id, data) :: rest =>
    match handler data with
    | Except.error _ => ⟨lastId, [], true⟩
    | Except.ok _ =>
      let r := processBatch handler id rest
      ⟨r.lastId, id :: r.handled, r.failed⟩

/-- Observable outcome of a `stream_events` run over a list of batches. -/
structure ConsumerResult where
  lastId : String
  handled : List String
  persisted : List String
  stopped : Bool
deriving DecidableEq

/-- The `'outer` loop of `stream_events` over the given batches: after a
batch that did not fail, `db.set(save_key, &last_id)` persists the current
`last_id`; a failed batch breaks out of the loop before that `set`, so
nothing further is handled or persisted. -/
def streamEventsRun {D ε : Type} (handler : D → Except ε Unit) :
    String → List (List (String × D)) → ConsumerResult
  | lastId, [] => ⟨lastId, [], [], false⟩
  | lastId, batch :: rest =>
    let b := processBatch handler lastId batch
    if b.failed then ⟨b.lastId, b.handled, [], true⟩
    else
      let r := streamEventsRun handler b.lastId rest
      ⟨r.lastId, b.handled ++ r.handled, b.lastId :: r.persisted, r.stopped⟩

/-- `Server::started` (`main.rs` lines 50-66) spawns one independent
`stream_events` task per channel; the three tasks share nothing but the
redis connection.  Embedded as the triple of the three runs, each on its
own handler, initial cursor and batch sequence. -/
def serverStarted {D ε : Type}
    (hMint hTransfer hBurn : D → Except ε Unit)
    (lMint lTransfer lBurn : String)
    (bMint bTransfer bBurn : List (List (String × D))) :
    ConsumerResult × ConsumerResult × ConsumerResult :=
  (streamEventsRun hMint lMint bMint,
   streamEventsRun hTransfer lTransfer bTransfer,
   streamEventsRun hBurn lBurn bBurn)

/-! ## The fan-out handler (`src/main.rs` lines 122-131)

`SocketEventHandler::handle` decodes the entry with `E::from_redis(values)?`
and then sends the decoded event to every socket in the subscriber set with
`socket.send(Arc::clone(&event)).await?`.  The per-socket send outcome is
embedded as a `Bool` (`true` = the session's mailbox accepted the message,
`false` = `MailboxError`, e.g. the session actor has died); the `?` on a
failed send returns the error from `handle` immediately. -/

/-- The `for socket in self.0.iter()` send loop: returns how many sockets
(from the front of the iteration order) received the event, and whether
the loop aborted on a failed send. -/
def deliverLoop : List Bool → Nat × Bool
  | [] => (0, false)
  | ok :: rest =>
    if ok then ((deliverLoop rest).1 + 1, (deliverLoop rest).2)
    else (0, true)

/-- `SocketEventHandler::handle`: decode with `from_redis` (embedded as the
parameter `decode`), then the send loop; the first component is how many
subscribers received the event, the second the `anyhow::Result<()>`. -/
def socketEventHandlerHandle {D E ε : Type} (decode : D → Except ε E)
    (sockets : List Bool) (d : D) : Nat × Except Unit Unit :=
  match decode d with
  | Except.error _ => (0, Except.error ())
  | Except.ok _ =>
    let r := deliverLoop sockets
    (r.1, if r.2 then Except.error () else Except.ok ())

/-! ## The connection session (`src/main.rs` lines 69-176)

`EventWebSocket<E, F>` holds `last_heartbeat : Instant` and
`filter : Option<F>`; the embedding adds an explicit `stopped` flag for
`ctx.stop()`.  Times are `Nat` readings of a monotone clock.  The JSON
filter decoding `serde_json::from_str::<F>` is kept as a parameter
`decode : String → Option F`. -/

/-- `HEARTBEAT_INTERVAL` (`main.rs` line 26), in seconds. -/
def HEARTBEAT_INTERVAL : Nat := 5

/-- `CLIENT_TIMEOUT` (`main.rs` line 27), in seconds. -/
def CLIENT_TIMEOUT : Nat := 15

/-- The mutable state of one `EventWebSocket<E, F>` session. -/
structure Session (F : Type) where
  last_heartbeat : Nat
  filter : Option F
  stopped : Bool
deriving DecidableEq

/-- One inbound item of the websocket stream, as matched by
`StreamHandler::handle` (`main.rs` lines 139-155): `Ok(Ping)`, `Ok(Pong)`,
`Ok(Text)`, and the catch-all `_` arm (`Ok(Binary)`, `Ok(Close)`,
`Ok(Continuation)`, `Ok(Nop)`, or `Err(ProtocolError)`). -/
inductive WsInbound where
  | ping (payload : String)
  | pong
  | text (s : String)
  | other
deriving DecidableEq

/-- `StreamHandler::handle` (`main.rs` lines 139-155): `Ping` and `Pong`
set `last_heartbeat` to now (and `Ping` answers with a pong frame);
`Text` tries `serde_json::from_str::<F>` and on success replaces the
filter, on failure does nothing; anything else calls `ctx.stop()`. -/
def handleWs {F : Type} (decode : String → Option F) (now : Nat)
    (s : Session F) : WsInbound → Session F
  | WsInbound.ping _ => { s with last_heartbeat := now }
  | WsInbound.pong => { s with last_heartbeat := now }
  | WsInbound.text t =>
    match decode t with
    | some f => { s with filter := some f }
    | none => s
  | WsInbound.other => { s with stopped := true }

/-- The `run_interval(HEARTBEAT_INTERVAL, ...)` closure armed in
`EventWebSocket::started` (`main.rs` lines 95-101): at a tick, if more
than `CLIENT_TIMEOUT` elapsed since `last_heartbeat`, `ctx.stop()`; a
ping probe is then sent either way.  A stopped actor's timer no longer
fires, hence the guard on `stopped`. -/
def heartbeatTick {F : Type} (now : Nat) (s : Session F) : Session F :=
  if s.stopped then s
  else if CLIENT_TIMEOUT < now - s.last_heartbeat then { s with stopped := true }
  else s

/-- A sequence of timestamped inbound frames fed through
`StreamHandler::handle`. -/
def runInbound {F : Type} (decode : String → Option F)
    (s : Session F) : List (Nat × WsInbound) → Session F
  | [] => s
  | (t, m) :: rest => runInbound decode (handleWs decode t s m) rest

/-- The time of the last inbound frame that the code treats as a liveness
signal (`Ping` or `Pong` — the only arms that touch `last_heartbeat`),
defaulting to the session start time. -/
def lastSignal (init : Nat) : List (Nat × WsInbound) → Nat
  | [] => init
  | (t, WsInbound.ping _) :: rest => lastSignal t rest
  | (t, WsInbound.pong) :: rest => lastSignal t rest
  | (_, WsInbound.text _) :: rest => lastSignal init rest
  | (_, WsInbound.other) :: rest => lastSignal init rest

/-- The time of the last inbound frame of any kind, defaulting to the
session start time — what the specification calls the last inbound
signal. -/
def lastInbound (init : Nat) : List (Nat × WsInbound) → Nat
  | [] => init
  | (t, _) :: rest => lastInbound t rest

/-- The filter gate of `Handler<Arc<Event<E>>>::handle` (`main.rs` lines
169-175): `self.filter.as_ref().map_or(true, |f| f.matches(&msg.0))`;
the serialized event is pushed to the client exactly when this is
`true`. -/
def eventGate {E F : Type} (matchesFn : F → E → Bool)
    (filter : Option F) (e : E) : Bool :=
  match filter with
  | some f => matchesFn f e
  | none => true

/-! ## `FromRedis` decoders (claim C9)

Each `from_redis` looks its named fields up in the entry's field map with
`values.get(...).unwrap()` — a panic when the field is absent — then
converts with `String::from_redis_value(...)?` — an early `Err` return —
and finally JSON-decodes with `serde_json::from_str`, whose two results
are matched jointly: `(Ok, Ok)` builds the event, any `Err` is returned.
The JSON decoders themselves (`serde_json`) are external and kept as
parameters; `panicked` records a reached `unwrap` of `None`. -/

/-- Outcome of a `from_redis` call, with the reachable panic explicit. -/
inductive FromRedisResult (α : Type) where
  | ok (a : α)
  | err
  | panicked
deriving DecidableEq

/-- `NftMintEvent` from `nft_events.rs`. -/
structure NftMintEvent where
  owner_id : String
  token_ids : List String
  memo : Option String
deriving DecidableEq

/-- `FullNftMintEvent` from `nft_events.rs`. -/
structure FullNftMintEvent where
  event : NftMintEvent
  context : NftEventContext
deriving DecidableEq

/-- `FromRedis for FullNftMintEvent` (`nft_events.rs` lines 99-113).
Evaluation order follows the Rust tuple: the `"context"` field is looked
up (`unwrap`: panic when absent) and string-converted (`?`: early `Err`),
then the `"mint"` field likewise; only then are the two JSON decode
results matched. -/
def FullNftMintEvent.from_redis
    (decodeContext : String → Option NftEventContext)
    (decodeMint : String → Option NftMintEvent)
    (values : List (String × RedisValue)) : FromRedisResult FullNftMintEvent :=
  match lookupKV values "context" with
  | none => FromRedisResult.panicked
  | some vContext =>
    match stringFromRedisValue vContext with
    | none => FromRedisResult.err
    | some sContext =>
      match lookupKV values "mint" with
      | none => FromRedisResult.panicked
      | some vMint =>
        match stringFromRedisValue vMint with
        | none => FromRedisResult.err
        | some sMint =>
          match decodeContext sContext, decodeMint sMint with
          | some context, some event => FromRedisResult.ok ⟨event, context⟩
          | _, _ => FromRedisResult.err

/-- `FromRedis for FullPotlockDonationEvent` (`potlock_events.rs` lines
116-130), fields `"context"` and `"donation"`, same shape as the NFT
mint decoder. -/
def FullPotlockDonationEvent.from_redis
    (decodeContext : String → Option PotlockEventContext)
    (decodeDonation : String → Option PotlockDonationEvent)
    (values : List (String × RedisValue)) :
    FromRedisResult FullPotlockDonationEvent :=
  match lookupKV values "context" with
  | none => FromRedisResult.panicked
  | some vContext =>
    match stringFromRedisValue vContext with
    | none => FromRedisResult.err
    | some sContext =>
      match lookupKV values "donation" with
      | none => FromRedisResult.panicked
      | some vDonation =>
        match stringFromRedisValue vDonation with
        | none => FromRedisResult.err
        | some sDonation =>
          match decodeContext sContext, decodeDonation sDonation with
          | some context, some event => FromRedisResult.ok ⟨event, context⟩
          | _, _ => FromRedisResult.err

/-- `TradePoolChangeEvent` from `trade_events.rs`; the free-form
`pool : serde_json::Value` field is embedded as an opaque string. -/
structure TradePoolChangeEvent where
  pool_id : String
  receipt_id : String
  block_timestamp_nanosec : String
  block_height : Nat
  pool : String
deriving DecidableEq

/-- `FullTradePoolChangeEvent` from `trade_events.rs`. -/
structure FullTradePoolChangeEvent where
  event : TradePoolChangeEvent
deriving DecidableEq

/-- `FromRedis for FullTradePoolChangeEvent` (`trade_events.rs` lines
264-273): a single `"pool_change"` field — `unwrap` (panic when absent),
string conversion (`?`), then one JSON decode. -/
def FullTradePoolChangeEvent.from_redis
    (decodePoolChange : String → Option TradePoolChangeEvent)
    (values : List (String × RedisValue)) :
    FromRedisResult FullTradePoolChangeEvent :=
  match lookupKV values "pool_change" with
  | none => FromRedisResult.panicked
  | some vPoolChange =>
    match stringFromRedisValue vPoolChange with
    | none => FromRedisResult.err
    | some sPoolChange =>
      match decodePoolChange sPoolChange with
      | some event => FromRedisResult.ok ⟨event⟩
      | none => FromRedisResult.err

/-! ## Helper lemmas -/

/-- The per-token loop body of `TradeSwapEventFilter::matches`, as a
proposition: the token must be a `balance_changes` key with a balance
change other than `"0"`. -/
theorem involvedTokenCheck_iff (m : List (String × String)) (t : String) :
    (match lookupKV m t with
     | none => false
     | some v => !(v = "0")) = true ↔
      ∃ v, lookupKV m t = some v ∧ v ≠ "0" := by
  cases h : lookupKV m t <;> simp [h]

theorem processBatch_ok {D ε : Type} (handler : D → Except ε Unit)
    (batch : List (String × D)) (lastId : String)
    (hok : ∀ p ∈ batch, ∃ u, handler p.2 = Except.ok u) :
    processBatch handler lastId batch =
      ⟨(batch.map Prod.fst).getLastD lastId, batch.map Prod.fst, false⟩ := by
  induction batch generalizing lastId with
  | nil => rfl
  | cons p rest ih =>
    obtain ⟨u, hu⟩ := hok p (List.mem_cons_self p rest)
    have hrest : ∀ q ∈ rest, ∃ u, handler q.2 = Except.ok u :=
      fun q hq => hok q (List.mem_cons_of_mem p hq)
    simp only [processBatch, hu, ih p.1 hrest, List.map_cons, List.getLastD_cons]

theorem processBatch_fail {D ε : Type} (handler : D → Except ε Unit)
    (pre post : List (String × D)) (idf : String) (df : D) (lastId : String)
    (hpre : ∀ p ∈ pre, ∃ u, handler p.2 = Except.ok u)
    (hfail : ∃ er, handler df = Except.error er) :
    processBatch handler lastId (pre ++ (idf, df) :: post) =
      ⟨(pre.map Prod.fst).getLastD lastId, pre.map Prod.fst, true⟩ := by
  induction pre generalizing lastId with
  | nil =>
    obtain ⟨er, her⟩ := hfail
    simp only [List.nil_append, processBatch, her, List.map_nil, List.getLastD_nil]
  | cons p rest ih =>
    obtain ⟨u, hu⟩ := hpre p (List.mem_cons_self p rest)
    have hrest : ∀ q ∈ rest, ∃ u, handler q.2 = Except.ok u :=
      fun q hq => hpre q (List.mem_cons_of_mem p hq)
    simp only [List.cons_append, processBatch, hu, List.append_eq, ih p.1 hrest,
      List.map_cons, List.getLastD_cons]

theorem deliverLoop_abort (pre post : List Bool)
    (hpre : ∀ b ∈ pre, b = true) :
    deliverLoop (pre ++ false :: post) = (pre.length, true) := by
  induction pre with
  | nil => rfl
  | cons b rest ih =>
    have hb : b = true := hpre b (List.mem_cons_self b rest)
    have hrest : ∀ c ∈ rest, c = true :=
      fun c hc => hpre c (List.mem_cons_of_mem b hc)
    simp [deliverLoop, hb, ih hrest]

theorem runInbound_last_heartbeat {F : Type} (decode : String → Option F)
    (s : Session F) (tr : List (Nat × WsInbound)) :
    (runInbound decode s tr).last_heartbeat = lastSignal s.last_heartbeat tr := by
  induction tr generalizing s with
  | nil => rfl
  | cons p rest ih =>
    obtain ⟨t, m⟩ := p
    cases m with
    | ping payload => simpa [runInbound, handleWs, lastSignal] using ih _
    | pong => simpa [runInbound, handleWs, lastSignal] using ih _
    | text str =>
      cases h : decode str <;>
        simp [runInbound, handleWs, h, lastSignal, ih]
    | other => simpa [runInbound, handleWs, lastSignal] using ih _

theorem runInbound_stopped {F : Type} (decode : String → Option F)
    (s : Session F) (tr : List (Nat × WsInbound))
    (hno : ∀ p ∈ tr, p.2 ≠ WsInbound.other) :
    (runInbound decode s tr).stopped = s.stopped := by
  induction tr generalizing s with
  | nil => rfl
  | cons p rest ih =>
    obtain ⟨t, m⟩ := p
    have hrest : ∀ q ∈ rest, q.2 ≠ WsInbound.other :=
      fun q hq => hno q (List.mem_cons_of_mem _ hq)
    cases m with
    | ping payload => simpa [runInbound, handleWs] using ih _ hrest
    | pong => simpa [runInbound, handleWs] using ih _ hrest
    | text str =>
      cases h : decode str <;>
        simp [runInbound, handleWs, h, ih _ hrest]
    | other => exact absurd rfl (hno (t, WsInbound.other) (List.mem_cons_self _ _))

/-! ## Claim theorems -/

/-- C7: for a `TradeSwapEventFilter` whose `involved_token_account_ids`
is `["usdc.token"]` and an event whose `balance_changes` map contains the
key `"usdc.token"` with value `"0"`, `matches` returns `false`, even
though the key is present. -/
theorem c7_zero_balance_change_excluded :
    TradeSwapEventFilter.matches ⟨none, some ["usdc.token"]⟩
      ⟨⟨[("usdc.token", "0")], []⟩, ⟨"trader.near", 1, "0", "tx", "rcpt"⟩⟩ = false
    ∧ lookupKV [("usdc.token", "0")] "usdc.token" = some "0" := by
  constructor <;> rfl

/-- C2 counterexample: a `TradeSwapEventFilter` listing the two tokens
`"usdc.token"` and `"wrap.near"`, and an event whose `balance_changes`
references the listed token `"usdc.token"` (with a nonzero change), so
the event references at least one listed identity; yet `matches` returns
`false`, because the code demands every listed token, not at least
one. -/
theorem c2_at_least_one_semantics_cex :
    TradeSwapEventFilter.matches ⟨none, some ["usdc.token", "wrap.near"]⟩
      ⟨⟨[("usdc.token", "5")], []⟩, ⟨"trader.near", 1, "0", "tx", "rcpt"⟩⟩ = false
    ∧ lookupKV [("usdc.token", "5")] "usdc.token" = some "5" := by
  constructor <;> rfl

/-- C1 counterexample: three subscribers, the second one's session has
died (its send fails).  Dispatching one decoded event delivers to exactly
one subscriber — the third, alive subscriber receives nothing — and
`handle` returns an error, which makes the channel's `stream_events` loop
stop: with one single-entry batch the consumer run ends `stopped`. -/
theorem c1_delivery_failure_not_isolated_cex :
    (socketEventHandlerHandle (fun _ : Unit => (Except.ok () : Except Unit Unit))
      [true, false, true] ()).1 = 1
    ∧ (socketEventHandlerHandle (fun _ : Unit => (Except.ok () : Except Unit Unit))
      [true, false, true] ()).2 = Except.error ()
    ∧ (streamEventsRun
        (fun d : Unit => (socketEventHandlerHandle
          (fun _ : Unit => (Except.ok () : Except Unit Unit)) [true, false, true] d).2)
        "$" [[("1-0", ())]]).stopped = true := by
  refine ⟨rfl, rfl, rfl⟩

/-- C1 (amended): a delivery failure to one subscriber is not isolated —
the `?` on `socket.send(...).await` makes `SocketEventHandler::handle`
return early, so only the subscribers before the failed one in iteration
order receive the event, the handler returns an error, and the channel's
`stream_events` loop breaks. -/
theorem c1_delivery_failure_aborts_fanout_and_consumer
    {D E ε : Type} (decode : D → Except ε E)
    (preS postS : List Bool) (hpre : ∀ b ∈ preS, b = true)
    (d : D) (hdec : ∃ ev, decode d = Except.ok ev)
    (id lastId : String) (rest : List (List (String × D))) :
    (socketEventHandlerHandle decode (preS ++ false :: postS) d).1 = preS.length
    ∧ (socketEventHandlerHandle decode (preS ++ false :: postS) d).2 = Except.error ()
    ∧ (streamEventsRun
        (fun x => (socketEventHandlerHandle decode (preS ++ false :: postS) x).2)
        lastId ([(id, d)] :: rest)).stopped = true := by
  obtain ⟨ev, hev⟩ := hdec
  have hd := deliverLoop_abort preS postS hpre
  refine ⟨?_, ?_, ?_⟩
  · simp [socketEventHandlerHandle, hev, hd]
  · simp [socketEventHandlerHandle, hev, hd]
  · simp [streamEventsRun, processBatch, socketEventHandlerHandle, hev, hd]

/-- Witness for the amended C1 at a concrete instance: one alive
subscriber before and one after a dead one. -/
theorem c1_delivery_failure_aborts_fanout_and_consumer_witness :
    (socketEventHandlerHandle (fun _ : Unit => (Except.ok () : Except Unit Unit))
      ([true] ++ false :: [true]) ()).1 = [true].length
    ∧ (socketEventHandlerHandle (fun _ : Unit => (Except.ok () : Except Unit Unit))
      ([true] ++ false :: [true]) ()).2 = Except.error ()
    ∧ (streamEventsRun
        (fun x => (socketEventHandlerHandle
          (fun _ : Unit => (Except.ok () : Except Unit Unit)) ([true] ++ false :: [true]) x).2)
        "$" [[("1-0", ())]]).stopped = true :=
  c1_delivery_failure_aborts_fanout_and_consumer
    (fun _ : Unit => (Except.ok () : Except Unit Unit)) [true] [true]
    (by decide) () ⟨(), rfl⟩ "1-0" "$" []

/-- C5: a decode failure on one entry is fatal for that channel only.
With a subscriber set whose sends all succeed, a batch whose prefix
decodes and whose next entry fails to decode stops the consumer loop:
nothing after the failing entry (in its batch or in later batches) is
handled — no retry, no skip — and no cursor is persisted; and the other
channels spawned by `Server::started` are separate `stream_events` runs
whose outcome is exactly their own run, untouched by this channel's
batches. -/
theorem c5_decode_failure_fatal_channel_only
    {D E ε : Type} (decode : D → Except ε E) (sockets : List Bool)
    (hdeliver : (deliverLoop sockets).2 = false)
    (lastId : String) (pre post : List (String × D)) (idf : String) (df : D)
    (rest : List (List (String × D)))
    (hpre : ∀ p ∈ pre, ∃ ev, decode p.2 = Except.ok ev)
    (hfail : ∃ er, decode df = Except.error er) :
    (streamEventsRun (fun x => (socketEventHandlerHandle decode sockets x).2)
        lastId ((pre ++ (idf, df) :: post) :: rest)).stopped = true
    ∧ (streamEventsRun (fun x => (socketEventHandlerHandle decode sockets x).2)
        lastId ((pre ++ (idf, df) :: post) :: rest)).handled = pre.map Prod.fst
    ∧ (streamEventsRun (fun x => (socketEventHandlerHandle decode sockets x).2)
        lastId ((pre ++ (idf, df) :: post) :: rest)).persisted = []
    ∧ ∀ (hMint hTransfer : D → Except Unit Unit) (lMint lTransfer : String)
        (bMint bTransfer : List (List (String × D))),
        (serverStarted hMint hTransfer
            (fun x => (socketEventHandlerHandle decode sockets x).2)
            lMint lTransfer lastId bMint bTransfer
            ((pre ++ (idf, df) :: post) :: rest)).2.1
          = streamEventsRun hTransfer lTransfer bTransfer := by
  have hhandler : ∀ p ∈ pre,
      ∃ u, (socketEventHandlerHandle decode sockets p.2).2 = Except.ok u := by
    intro p hp
    obtain ⟨ev, hev⟩ := hpre p hp
    exact ⟨(), by simp [socketEventHandlerHandle, hev, hdeliver]⟩
  have hhfail : ∃ er, (socketEventHandlerHandle decode sockets df).2 = Except.error er := by
    obtain ⟨er, her⟩ := hfail
    exact ⟨(), by simp [socketEventHandlerHandle, her]⟩
  have hpb := processBatch_fail (fun x => (socketEventHandlerHandle decode sockets x).2)
    pre post idf df lastId hhandler hhfail
  refine ⟨?_, ?_, ?_, fun _ _ _ _ _ _ => rfl⟩ <;>
    simp [streamEventsRun, hpb]

/-- Witness for C5 at a concrete instance: entries tagged `true` decode,
the entry tagged `false` fails; one alive subscriber; one later batch. -/
theorem c5_decode_failure_fatal_channel_only_witness :
    (streamEventsRun
        (fun x => (socketEventHandlerHandle
          (fun b : Bool => if b then (Except.ok () : Except Unit Unit)
            else Except.error ()) [true] x).2)
        "$" (([("1-0", true)] ++ ("1-1", false) :: [("1-2", true)]) :: [[("2-0", true)]])).stopped
      = true
    ∧ (streamEventsRun
        (fun x => (socketEventHandlerHandle
          (fun b : Bool => if b then (Except.ok () : Except Unit Unit)
            else Except.error ()) [true] x).2)
        "$" (([("1-0", true)] ++ ("1-1", false) :: [("1-2", true)]) :: [[("2-0", true)]])).handled
      = [("1-0", true)].map Prod.fst
    ∧ (streamEventsRun
        (fun x => (socketEventHandlerHandle
          (fun b : Bool => if b then (Except.ok () : Except Unit Unit)
            else Except.error ()) [true] x).2)
        "$" (([("1-0", true)] ++ ("1-1", false) :: [("1-2", true)]) :: [[("2-0", true)]])).persisted
      = []
    ∧ ∀ (hMint hTransfer : Bool → Except Unit Unit) (lMint lTransfer : String)
        (bMint bTransfer : List (List (String × Bool))),
        (serverStarted hMint hTransfer
            (fun x => (socketEventHandlerHandle
              (fun b : Bool => if b then (Except.ok () : Except Unit Unit)
                else Except.error ()) [true] x).2)
            lMint lTransfer "$" bMint bTransfer
            (([("1-0", true)] ++ ("1-1", false) :: [("1-2", true)]) :: [[("2-0", true)]])).2.1
          = streamEventsRun hTransfer lTransfer bTransfer :=
  c5_decode_failure_fatal_channel_only
    (fun b : Bool => if b then (Except.ok () : Except Unit Unit) else Except.error ())
    [true] rfl "$" [("1-0", true)] [("1-2", true)] "1-1" false [[("2-0", true)]]
    (by intro p hp; refine ⟨(), ?_⟩; fin_cases hp; rfl) ⟨(), rfl⟩

/-- C6: for a batch of N ≥ 1 entries all handled successfully, the value
`SET` under the cursor key right after the batch is the id of the last of
those entries; and for a batch whose processing fails partway, nothing is
persisted from that batch on — the cursor stays at the previous batch
boundary. -/
theorem c6_cursor_persist_batch_boundary
    {D ε : Type} (handler : D → Except ε Unit) (lastId : String)
    (es : List (String × D)) (idN : String) (dN : D)
    (rest : List (List (String × D)))
    (hok : ∀ p ∈ es ++ [(idN, dN)], ∃ u, handler p.2 = Except.ok u) :
    (streamEventsRun handler lastId ((es ++ [(idN, dN)]) :: rest)).persisted =
      idN :: (streamEventsRun handler idN rest).persisted
    ∧ ∀ (batch : List (String × D)),
        (processBatch handler lastId batch).failed = true →
        (streamEventsRun handler lastId (batch :: rest)).persisted = [] := by
  have hpb := processBatch_ok handler (es ++ [(idN, dN)]) lastId hok
  constructor
  · simp [streamEventsRun, hpb, List.getLastD_concat]
  · intro batch hf
    simp [streamEventsRun, hf]

/-- Witness for C6 at a concrete instance: a two-entry successful batch
persists the second entry's id; a batch failing on its first entry
persists nothing. -/
theorem c6_cursor_persist_batch_boundary_witness :
    (streamEventsRun
        (fun b : Bool => if b then (Except.ok () : Except Unit Unit) else Except.error ())
        "$" (([("1-0", true)] ++ [("1-1", true)]) :: [])).persisted = ["1-1"]
    ∧ (streamEventsRun
        (fun b : Bool => if b then (Except.ok () : Except Unit Unit) else Except.error ())
        "$" ([("2-0", false)] :: [])).persisted = [] := by
  have h := c6_cursor_persist_batch_boundary
    (fun b : Bool => if b then (Except.ok () : Except Unit Unit) else Except.error ())
    "$" [("1-0", true)] "1-1" true []
    (by intro p hp; refine ⟨(), ?_⟩; fin_cases hp <;> rfl)
  exact ⟨h.1, h.2 [("2-0", false)] rfl⟩

/-- C2 (amended): `NftTransferFilter`'s `involved_account_ids` condition
is at-least-one membership over the event's two owner fields, but
`TradeSwapEventFilter`'s `involved_token_account_ids` condition requires
every listed token to be a key of `balance_changes` with a balance change
other than `"0"` — an event referencing merely at least one listed token
does not in general match. -/
theorem c2_set_membership_semantics :
    (∀ (involved : List String) (e : FullNftTransferEvent),
       NftTransferFilter.matches ⟨some involved, none, none, none⟩ e = true ↔
         e.event.old_owner_id ∈ involved ∨ e.event.new_owner_id ∈ involved)
    ∧ (∀ (toks : List String) (e : FullTradeSwapEvent),
       TradeSwapEventFilter.matches ⟨none, some toks⟩ e = true ↔
         ∀ t ∈ toks, ∃ v, lookupKV e.event.balance_changes t = some v ∧ v ≠ "0") := by
  constructor
  · intro involved e
    simp [NftTransferFilter.matches]
  · intro toks e
    simp only [TradeSwapEventFilter.matches, Bool.true_and, List.all_eq_true]
    constructor
    · intro h t ht
      exact (involvedTokenCheck_iff e.event.balance_changes t).mp (h t ht)
    · intro h t ht
      exact (involvedTokenCheck_iff e.event.balance_changes t).mpr (h t ht)

/-- C3 counterexample: a session started at time 0 receives a text
(filter) message at time 10 and a heartbeat tick fires at time 16.  Only
6 seconds — well under `CLIENT_TIMEOUT` — have elapsed since the last
inbound message, yet the tick stops the session, because the `Text` arm
of `StreamHandler::handle` does not touch `last_heartbeat`. -/
theorem c3_text_message_not_liveness_signal_cex :
    (heartbeatTick 16 (runInbound (fun _ => (none : Option Unit)) ⟨0, none, false⟩
        [(10, WsInbound.text "filter")])).stopped = true
    ∧ 16 - lastInbound 0 [(10, WsInbound.text "filter")] ≤ CLIENT_TIMEOUT := by
  constructor
  · rfl
  · decide

/-- C3 (amended): the heartbeat check runs every `HEARTBEAT_INTERVAL` =
5 seconds and closes the session exactly when more than `CLIENT_TIMEOUT`
= 15 seconds have elapsed since the last `Ping` or `Pong` frame (probe
reply or unsolicited keepalive) — or since session start when none
arrived; text/filter messages and other inbound frames do not reset the
clock. -/
theorem c3_heartbeat_timeout_ping_pong_only
    {F : Type} (decode : String → Option F) (init now : Nat) (f0 : Option F)
    (tr : List (Nat × WsInbound))
    (hno : ∀ p ∈ tr, p.2 ≠ WsInbound.other) :
    HEARTBEAT_INTERVAL = 5 ∧ CLIENT_TIMEOUT = 15 ∧
    ((heartbeatTick now (runInbound decode ⟨init, f0, false⟩ tr)).stopped = true ↔
      CLIENT_TIMEOUT < now - lastSignal init tr) := by
  refine ⟨rfl, rfl, ?_⟩
  have hs := runInbound_stopped decode ⟨init, f0, false⟩ tr hno
  have hl := runInbound_last_heartbeat decode ⟨init, f0, false⟩ tr
  by_cases h : CLIENT_TIMEOUT < now - lastSignal init tr
  · simp [heartbeatTick, hs, hl, h]
  · simp [heartbeatTick, hs, hl, h]

/-- Witness for the amended C3 at a concrete instance: a pong at time 3,
tick at time 20 — more than 15 seconds later, so the session stops. -/
theorem c3_heartbeat_timeout_ping_pong_only_witness :
    HEARTBEAT_INTERVAL = 5 ∧ CLIENT_TIMEOUT = 15 ∧
    ((heartbeatTick 20 (runInbound (fun _ => (none : Option Unit)) ⟨0, none, false⟩
        [(3, WsInbound.pong)])).stopped = true ↔
      CLIENT_TIMEOUT < 20 - lastSignal 0 [(3, WsInbound.pong)]) :=
  c3_heartbeat_timeout_ping_pong_only (fun _ => (none : Option Unit)) 0 20 none
    [(3, WsInbound.pong)] (by decide)

/-- C8: an inbound text that decodes as the session's filter type
replaces the filter wholesale; a text that fails to decode leaves the
session completely unchanged — the previous filter (and, when none was
set, the match-all gate of event delivery) stays in effect and the
session is not stopped. -/
theorem c8_filter_replace_wholesale_or_ignore
    {F : Type} (decode : String → Option F) (now : Nat) (s : Session F)
    (t : String) :
    (∀ f, decode t = some f →
       handleWs decode now s (WsInbound.text t) = { s with filter := some f })
    ∧ (decode t = none →
       handleWs decode now s (WsInbound.text t) = s
       ∧ (handleWs decode now s (WsInbound.text t)).stopped = s.stopped
       ∧ ∀ (E : Type) (matchesFn : F → E → Bool) (e : E),
           eventGate matchesFn (handleWs decode now s (WsInbound.text t)).filter e
             = eventGate matchesFn s.filter e) := by
  constructor
  · intro f hf
    simp [handleWs, hf]
  · intro hf
    refine ⟨?_, ?_, ?_⟩ <;> simp [handleWs, hf]

/-- Witness for C8 at a concrete instance: the decoder accepts exactly
the text `"yes"` (as the filter value 1); `"yes"` replaces the filter,
`"no"` is ignored without stopping the session. -/
theorem c8_filter_replace_wholesale_or_ignore_witness :
    handleWs (fun u => if u = "yes" then some 1 else none) 7
        ⟨0, some 2, false⟩ (WsInbound.text "yes")
      = { last_heartbeat := 0, filter := some 1, stopped := false }
    ∧ handleWs (fun u => if u = "yes" then some 1 else none) 7
        ⟨0, some 2, false⟩ (WsInbound.text "no")
      = ⟨0, some 2, false⟩ := by
  constructor
  · exact (c8_filter_replace_wholesale_or_ignore
      (fun u => if u = "yes" then some 1 else none) 7 ⟨0, some 2, false⟩ "yes").1
      1 (by decide)
  · exact ((c8_filter_replace_wholesale_or_ignore
      (fun u => if u = "yes" then some 1 else none) 7 ⟨0, some 2, false⟩ "no").2
      (by decide)).1

/-- C4: for both cited numeric-threshold filters, a `parse::<u128>()`
failure on the event's amount or on the configured threshold makes
`matches` return `false` whatever the other fields say; and when both
parse, the threshold condition alone (all other fields unset) holds iff
`event_amount >= threshold`. -/
theorem c4_threshold_parse_semantics :
    (∀ (f : PotlockPotDonationEventFilter) (m : String)
       (e : FullPotlockPotDonationEvent),
       f.min_amount_near = some m →
       (parseU128 e.event.total_amount = none ∨ parseU128 m = none) →
       PotlockPotDonationEventFilter.matches f e = false)
    ∧ (∀ (m : String) (e : FullPotlockPotDonationEvent) (a b : Nat),
       parseU128 e.event.total_amount = some a → parseU128 m = some b →
       (PotlockPotDonationEventFilter.matches ⟨none, none, none, some m⟩ e = true
         ↔ b ≤ a))
    ∧ (∀ (f : PotlockDonationEventFilter) (mm : List (String × String))
       (m : String) (e : FullPotlockDonationEvent),
       f.min_amounts = some mm → lookupKV mm e.event.donor_id = some m →
       (parseU128 e.event.total_amount = none ∨ parseU128 m = none) →
       PotlockDonationEventFilter.matches f e = false)
    ∧ (∀ (mm : List (String × String)) (m : String)
       (e : FullPotlockDonationEvent) (a b : Nat),
       lookupKV mm e.event.donor_id = some m →
       parseU128 e.event.total_amount = some a → parseU128 m = some b →
       (PotlockDonationEventFilter.matches ⟨none, none, none, some mm⟩ e = true
         ↔ b ≤ a)) := by
  refine ⟨?_, ?_, ?_, ?_⟩
  · intro f m e hmin hpar
    rcases hpar with h | h <;>
      simp [PotlockPotDonationEventFilter.matches, hmin, h]
  · intro m e a b ha hb
    simp [PotlockPotDonationEventFilter.matches, ha, hb, Nat.not_lt]
  · intro f mm m e hmin hlook hpar
    rcases hpar with h | h <;>
      simp [PotlockDonationEventFilter.matches, hmin, hlook, h]
  · intro mm m e a b hlook ha hb
    simp [PotlockDonationEventFilter.matches, hlook, ha, hb, Nat.not_lt]

/-- Witness for C4 at concrete instances: an unparsable amount `"abc"`
is a non-match; amount `"15"` against threshold `"10"` matches, both for
the pot-donation filter and for the donation filter keyed by donor. -/
theorem c4_threshold_parse_semantics_witness :
    PotlockPotDonationEventFilter.matches ⟨none, none, none, some "10"⟩
      ⟨⟨1, "pot", "alice", "abc", "14", none, 0, none, none, "0", none, none⟩,
       ⟨"tx", "r", 0, "0"⟩⟩ = false
    ∧ (PotlockPotDonationEventFilter.matches ⟨none, none, none, some "10"⟩
        ⟨⟨1, "pot", "alice", "15", "14", none, 0, none, none, "0", none, none⟩,
         ⟨"tx", "r", 0, "0"⟩⟩ = true ↔ 10 ≤ 15)
    ∧ PotlockDonationEventFilter.matches ⟨none, none, none, some [("alice", "xyz")]⟩
      ⟨⟨1, "alice", "15", "acc", none, 0, "proj", "0", none, none⟩,
       ⟨"tx", "r", 0, "0"⟩⟩ = false
    ∧ (PotlockDonationEventFilter.matches ⟨none, none, none, some [("alice", "10")]⟩
        ⟨⟨1, "alice", "15", "acc", none, 0, "proj", "0", none, none⟩,
         ⟨"tx", "r", 0, "0"⟩⟩ = true ↔ 10 ≤ 15) := by
  refine ⟨?_, ?_, ?_, ?_⟩
  · exact c4_threshold_parse_semantics.1 ⟨none, none, none, some "10"⟩ "10"
      ⟨⟨1, "pot", "alice", "abc", "14", none, 0, none, none, "0", none, none⟩,
       ⟨"tx", "r", 0, "0"⟩⟩ rfl (Or.inl (by decide))
  · exact c4_threshold_parse_semantics.2.1 "10"
      ⟨⟨1, "pot", "alice", "15", "14", none, 0, none, none, "0", none, none⟩,
       ⟨"tx", "r", 0, "0"⟩⟩ 15 10 (by decide) (by decide)
  · exact c4_threshold_parse_semantics.2.2.1 ⟨none, none, none, some [("alice", "xyz")]⟩
      [("alice", "xyz")] "xyz"
      ⟨⟨1, "alice", "15", "acc", none, 0, "proj", "0", none, none⟩,
       ⟨"tx", "r", 0, "0"⟩⟩ rfl (by decide) (Or.inr (by decide))
  · exact c4_threshold_parse_semantics.2.2.2 [("alice", "10")] "10"
      ⟨⟨1, "alice", "15", "acc", none, 0, "proj", "0", none, none⟩,
       ⟨"tx", "r", 0, "0"⟩⟩ 15 10 (by decide) (by decide) (by decide)

/-- C9 counterexample: an entry whose field map has `"context"` (bound to
`Nil`, whose string conversion fails and `?`-returns) but lacks `"mint"`.
The map lacks an expected named field, yet `from_redis` returns the `Err`
branch instead of panicking, because the early `?` return on the context
conversion precedes the `unwrap` of the `"mint"` lookup. -/
theorem c9_missing_field_err_cex :
    FullNftMintEvent.from_redis (fun _ => none) (fun _ => none)
        [("context", RedisValue.nil)] = FromRedisResult.err
    ∧ lookupKV [("context", RedisValue.nil)] "mint" = none := by
  constructor
  · rfl
  · rfl

/-- C9 (amended): `from_redis` panics (`unwrap` of `None`) on a missing
expected field once its processing is reached — unconditionally for the
first field, and for a later field provided every earlier field was
present and string-converted successfully; and the `Err` branch is only
reached through a field that is present (shown for the single-field
`FullTradePoolChangeEvent` decoder). -/
theorem c9_missing_field_panics :
    (∀ (dc : String → Option NftEventContext) (dm : String → Option NftMintEvent)
       (values : List (String × RedisValue)),
       lookupKV values "context" = none →
       FullNftMintEvent.from_redis dc dm values = FromRedisResult.panicked)
    ∧ (∀ (dc : String → Option NftEventContext) (dm : String → Option NftMintEvent)
       (values : List (String × RedisValue)) (v : RedisValue) (s : String),
       lookupKV values "context" = some v → stringFromRedisValue v = some s →
       lookupKV values "mint" = none →
       FullNftMintEvent.from_redis dc dm values = FromRedisResult.panicked)
    ∧ (∀ (dc : String → Option PotlockEventContext)
       (dd : String → Option PotlockDonationEvent)
       (values : List (String × RedisValue)),
       lookupKV values "context" = none →
       FullPotlockDonationEvent.from_redis dc dd values = FromRedisResult.panicked)
    ∧ (∀ (dc : String → Option PotlockEventContext)
       (dd : String → Option PotlockDonationEvent)
       (values : List (String × RedisValue)) (v : RedisValue) (s : String),
       lookupKV values "context" = some v → stringFromRedisValue v = some s →
       lookupKV values "donation" = none →
       FullPotlockDonationEvent.from_redis dc dd values = FromRedisResult.panicked)
    ∧ (∀ (dp : String → Option TradePoolChangeEvent)
       (values : List (String × RedisValue)),
       lookupKV values "pool_change" = none →
       FullTradePoolChangeEvent.from_redis dp values = FromRedisResult.panicked)
    ∧ (∀ (dp : String → Option TradePoolChangeEvent)
       (values : List (String × RedisValue)),
       FullTradePoolChangeEvent.from_redis dp values = FromRedisResult.err →
       ∃ v, lookupKV values "pool_change" = some v) := by
  refine ⟨?_, ?_, ?_, ?_, ?_, ?_⟩
  · intro dc dm values h
    simp [FullNftMintEvent.from_redis, h]
  · intro dc dm values v s hv hs h
    simp [FullNftMintEvent.from_redis, hv, hs, h]
  · intro dc dd values h
    simp [FullPotlockDonationEvent.from_redis, h]
  · intro dc dd values v s hv hs h
    simp [FullPotlockDonationEvent.from_redis, hv, hs, h]
  · intro dp values h
    simp [FullTradePoolChangeEvent.from_redis, h]
  · intro dp values herr
    cases hv : lookupKV values "pool_change" with
    | none => simp [FullTradePoolChangeEvent.from_redis, hv] at herr
    | some v => exact ⟨v, rfl⟩

/-- Witness for the amended C9 at concrete field maps: an empty map makes
every decoder panic on its first field; a map with a convertible context
but no payload field panics on the payload field; `Err` from the
single-field decoder implies the field is present. -/
theorem c9_missing_field_panics_witness :
    FullNftMintEvent.from_redis (fun _ => none) (fun _ => none) []
      = FromRedisResult.panicked
    ∧ FullNftMintEvent.from_redis (fun _ => none) (fun _ => none)
        [("context", RedisValue.data "ctx")] = FromRedisResult.panicked
    ∧ FullPotlockDonationEvent.from_redis (fun _ => none) (fun _ => none) []
      = FromRedisResult.panicked
    ∧ FullPotlockDonationEvent.from_redis (fun _ => none) (fun _ => none)
        [("context", RedisValue.data "ctx")] = FromRedisResult.panicked
    ∧ FullTradePoolChangeEvent.from_redis (fun _ => none) []
      = FromRedisResult.panicked
    ∧ (FullTradePoolChangeEvent.from_redis (fun _ => none)
        [("pool_change", RedisValue.data "p")] = FromRedisResult.err →
       ∃ v, lookupKV [("pool_change", RedisValue.data "p")] "pool_change" = some v) := by
  refine ⟨?_, ?_, ?_, ?_, ?_, ?_⟩
  · exact c9_missing_field_panics.1 (fun _ => none) (fun _ => none) [] rfl
  · exact c9_missing_field_panics.2.1 (fun _ => none) (fun _ => none)
      [("context", RedisValue.data "ctx")] (RedisValue.data "ctx") "ctx" rfl rfl rfl
  · exact c9_missing_field_panics.2.2.1 (fun _ => none) (fun _ => none) [] rfl
  · exact c9_missing_field_panics.2.2.2.1 (fun _ => none) (fun _ => none)
      [("context", RedisValue.data "ctx")] (RedisValue.data "ctx") "ctx" rfl rfl rfl
  · exact c9_missing_field_panics.2.2.2.2.1 (fun _ => none) [] rfl
  · exact c9_missing_field_panics.2.2.2.2.2 (fun _ => none)
      [("pool_change", RedisValue.data "p")]

/-- C10: `stream_events` starts from
`db.get(save_key).await.unwrap_or("$")`: any failing `GET` — a transport
failure (whatever value the store holds for the key, so a persisted
backlog position is silently discarded), or the `Nil` reply for an
absent key — yields the initial cursor `"$"`; only a successful `GET`
restores the stored position. -/
theorem c10_get_failure_defaults_cursor :
    (∀ (store : String → RedisValue) (k : String),
       streamEventsInitLastId false store k = "$")
    ∧ (∀ (s k : String),
       streamEventsInitLastId false (fun _ => RedisValue.data s) k = "$")
    ∧ (∀ (k : String),
       streamEventsInitLastId true (fun _ => RedisValue.nil) k = "$")
    ∧ (∀ (s k : String),
       streamEventsInitLastId true (fun _ => RedisValue.data s) k = s) :=
  ⟨fun _ _ => rfl, fun _ _ => rfl, fun _ => rfl, fun _ _ => rfl⟩
